import Mathlib

/-!
The port and power translation of go-bmc-rpc (`main.go`).

A shallow embedding of `main.go`: the port lookup (`getPort`), the power
translation (`GetPower`, `setPortPower`), the two HTTP handlers (`RPCHandler`,
`QueryHandler`) and the start-up code (`main`).

Conventions of the embedding.

* The upstream controller is reached through two calls only,
  `client.GetDeviceByMAC` and `client.UpdateDevice`.  Their behaviour is a
  parameter (`Upstream`): a transition function on an upstream state `σ`
  which returns either a device or an error message.  Every call is also
  appended to a log (`World.calls`), so that "no update call is issued" is a
  statement about that log.
* `unifi.Device` and `unifi.DevicePortOverrides` are declared outside
  `main.go`.  The fields which `main.go` reads or writes are explicit
  (`ID`, `PortOverrides`, `PortIDX`, `PoeMode`); the remaining fields are a
  type parameter (`δ` for the device, `ρ` for a port override).
* Go `int` is 64 bits wide; port indices are only compared, never computed
  with, so they are integers, and `Atoi` rejects what does not fit.
* An `error` is represented by its message; `nil` is `none`.
* `fmt.Printf` to standard output and the text sent to the logger are not
  part of the model, except that `log.Fatalf` ends the process: the text it
  logs is recorded in `Outcome.fatal` and nothing after it is executed.
-/

namespace BmcRpc

deriving instance DecidableEq for Except

/-! ## `strconv.Atoi` -/

/-- The two error values of `strconv`: `ErrSyntax` and `ErrRange`. -/
inductive NumErrorKind where
  | ErrSyntax
  | ErrRange
  deriving DecidableEq, Repr

/-- The Go type `strconv.NumError`: the failing function, the input, the cause. -/
structure NumError where
  Func : String
  Num : String
  Err : NumErrorKind
  deriving DecidableEq, Repr

/-- The text of `ErrSyntax` and `ErrRange`. -/
def NumErrorKind.Error : NumErrorKind → String
  | .ErrSyntax => "invalid syntax"
  | .ErrRange => "value out of range"

/-- Two lower-case hexadecimal digits of a number below 256. -/
def hexByte (n : Nat) : String :=
  String.mk [Nat.digitChar (n / 16), Nat.digitChar (n % 16)]

/-- The escape which `strconv.Quote` writes for one character: the quote and
the backslash get a backslash, an ASCII control character its letter escape or
`\x` and two hexadecimal digits, a printable ASCII character stays as it is.
Characters outside ASCII are left as they are (Go escapes those which its
Unicode tables call non-printable). -/
def quoteChar (c : Char) : String :=
  if c = '"' then "\\\""
  else if c = '\\' then "\\\\"
  else if c.toNat = 7 then "\\a"
  else if c.toNat = 8 then "\\b"
  else if c.toNat = 12 then "\\f"
  else if c = '\n' then "\\n"
  else if c = '\r' then "\\r"
  else if c = '\t' then "\\t"
  else if c.toNat = 11 then "\\v"
  else if c.toNat < 32 ∨ c.toNat = 127 then "\\x" ++ hexByte c.toNat
  else String.singleton c

/-- The Go function `strconv.Quote`: the escaped characters between double
quotes. -/
def Quote (s : String) : String :=
  "\"" ++ String.join (s.toList.map quoteChar) ++ "\""

/-- The method `(*NumError).Error`. -/
def NumError.Error (e : NumError) : String :=
  "strconv." ++ e.Func ++ ": " ++ "parsing " ++ Quote e.Num ++ ": " ++ e.Err.Error

/-- Value of a decimal digit, `none` for any other character. -/
def digitVal (c : Char) : Option Nat :=
  if '0' ≤ c ∧ c ≤ '9' then some (c.toNat - '0'.toNat) else none

/-- Largest value of a Go `uint64`. -/
def maxUint64 : Nat := 2 ^ 64 - 1

/-- The digit loop of `strconv.ParseUint` in base 10 with 64 bits: a character
that is not a digit is a syntax error, a value above `maxUint64` a range
error. -/
def parseUintLoop : List Char → Nat → Except NumErrorKind Nat
  | [], n => .ok n
  | c :: cs, n =>
    match digitVal c with
    | none => .error .ErrSyntax
    | some d =>
      if n * 10 + d > maxUint64 then .error .ErrRange
      else parseUintLoop cs (n * 10 + d)

/-- The Go function `strconv.Atoi` on a 64-bit platform (`ParseInt(s, 10, 0)`
with the function name of the error replaced): an optional sign, then at
least one decimal digit, and the value must fit an `int`. -/
def Atoi (s : String) : Except NumError Int :=
  match s.toList with
  | [] => .error { Func := "Atoi", Num := s, Err := .ErrSyntax }
  | c :: cs =>
    let neg : Bool := c = '-'
    let ds := if c = '+' ∨ c = '-' then cs else c :: cs
    if ds.isEmpty then .error { Func := "Atoi", Num := s, Err := .ErrSyntax }
    else
      match parseUintLoop ds 0 with
      | .error k => .error { Func := "Atoi", Num := s, Err := k }
      | .ok un =>
        if neg = false ∧ un ≥ 2 ^ 63 then
          .error { Func := "Atoi", Num := s, Err := .ErrRange }
        else if neg = true ∧ un > 2 ^ 63 then
          .error { Func := "Atoi", Num := s, Err := .ErrRange }
        else .ok (if neg then -(un : Int) else (un : Int))

/-! ## Data model -/

/-- The Go type `unifi.DevicePortOverrides`: the port index, the PoE mode, and
the fields `main.go` never touches. -/
structure DevicePortOverrides (ρ : Type) where
  PortIDX : Int
  PoeMode : String
  Other : ρ
  deriving DecidableEq, Repr

/-- The Go type `unifi.Device`: the identifier, the ordered port overrides,
and the fields `main.go` never touches. -/
structure Device (ρ δ : Type) where
  ID : String
  PortOverrides : List (DevicePortOverrides ρ)
  Other : δ
  deriving DecidableEq, Repr

/-- The zero value of `unifi.DevicePortOverrides`. -/
def DevicePortOverrides.zero {ρ : Type} [Inhabited ρ] : DevicePortOverrides ρ :=
  { PortIDX := 0, PoeMode := "", Other := default }

/-! ## The upstream controller -/

/-- A call made against the upstream API, with its site and its argument. -/
inductive Call (ρ δ : Type) where
  | GetDeviceByMAC (site mac : String)
  | UpdateDevice (site : String) (dev : Device ρ δ)
  deriving DecidableEq, Repr

/-- Behaviour of the two client methods used by `main.go`, as transitions of
an upstream state `σ`; the answer is a device or the message of an error. -/
structure Upstream (σ ρ δ : Type) where
  GetDeviceByMAC : σ → String → String → Except String (Device ρ δ) × σ
  UpdateDevice : σ → String → Device ρ δ → Except String (Device ρ δ) × σ

/-- The upstream state together with the log of the calls made so far. -/
structure World (σ ρ δ : Type) where
  state : σ
  calls : List (Call ρ δ)

variable {σ ρ δ : Type}

/-- The call `client.GetDeviceByMAC(ctx, site, mac)`: run it and log it. -/
def clientGetDeviceByMAC (up : Upstream σ ρ δ) (w : World σ ρ δ) (site mac : String) :
    Except String (Device ρ δ) × World σ ρ δ :=
  ((up.GetDeviceByMAC w.state site mac).1,
    { state := (up.GetDeviceByMAC w.state site mac).2,
      calls := w.calls ++ [Call.GetDeviceByMAC site mac] })

/-- The call `client.UpdateDevice(ctx, site, dev)`: run it and log it. -/
def clientUpdateDevice (up : Upstream σ ρ δ) (w : World σ ρ δ) (site : String)
    (dev : Device ρ δ) : Except String (Device ρ δ) × World σ ρ δ :=
  ((up.UpdateDevice w.state site dev).1,
    { state := (up.UpdateDevice w.state site dev).2,
      calls := w.calls ++ [Call.UpdateDevice site dev] })

/-! ## `getPort` and `GetPower` -/

/-- The three named results of `getPort`. -/
structure PortResult (ρ : Type) where
  deviceId : String
  port : DevicePortOverrides ρ
  err : Option String

/-- The loop of `getPort`: the first override whose `PortIDX` is `p`, and the
zero value when there is none. -/
def getPortLoop [Inhabited ρ] (p : Int) : List (DevicePortOverrides ρ) → DevicePortOverrides ρ
  | [] => DevicePortOverrides.zero
  | pd :: rest => if pd.PortIDX = p then pd else getPortLoop p rest

/-- The Go function `getPort`. -/
def getPort [Inhabited ρ] (up : Upstream σ ρ δ) (w : World σ ρ δ)
    (macAddress portIdx : String) : PortResult ρ × World σ ρ δ :=
  match Atoi portIdx with
  | .error e =>
    ({ deviceId := "", port := DevicePortOverrides.zero,
       err := some ("error getting integer value from port " ++ portIdx ++ ": " ++ e.Error) }, w)
  | .ok p =>
    match clientGetDeviceByMAC up w "default" macAddress with
    | (.error e, w1) =>
      ({ deviceId := "", port := DevicePortOverrides.zero,
         err := some ("error getting device by MAC Address " ++ macAddress ++ ": " ++ e) }, w1)
    | (.ok dev, w1) =>
      ({ deviceId := dev.ID, port := getPortLoop p dev.PortOverrides, err := none }, w1)

/-- The two named results of `GetPower`. -/
structure PowerResult where
  state : String
  err : Option String
  deriving DecidableEq, Repr

/-- The Go function `GetPower`. -/
def GetPower [Inhabited ρ] (up : Upstream σ ρ δ) (w : World σ ρ δ)
    (macAddress portIdx : String) : PowerResult × World σ ρ δ :=
  match getPort up w macAddress portIdx with
  | (r, w1) =>
    match r.err with
    | some e => ({ state := "", err := some e }, w1)
    | none =>
      let mode := r.port.PoeMode
      if mode = "auto" then ({ state := "on", err := none }, w1)
      else if mode = "off" then ({ state := "off", err := none }, w1)
      else ({ state := "", err := none }, w1)

/-! ## `setPortPower` -/

/-- The loop of `setPortPower` over `dev.PortOverrides`.  The result is `none`
when the loop leaves the function through `return nil`; otherwise it is the
overrides as the loop leaves them, the entry at the current index rewritten
where the source assigns `dev.PortOverrides[i].PoeMode`.  A `break` inside the
`switch` ends the `switch` only, so the loop goes on to the next override. -/
def setPortPowerLoop (p : Int) (state : String) :
    List (DevicePortOverrides ρ) → Option (List (DevicePortOverrides ρ))
  | [] => some []
  | pd :: rest =>
    if pd.PortIDX = p then
      if state = "on" then
        if pd.PoeMode = "auto" then none
        else (setPortPowerLoop p state rest).map fun r => { pd with PoeMode := "auto" } :: r
      else if state = "off" then
        if pd.PoeMode = "off" then none
        else (setPortPowerLoop p state rest).map fun r => { pd with PoeMode := "off" } :: r
      else (setPortPowerLoop p state rest).map fun r => pd :: r
    else (setPortPowerLoop p state rest).map fun r => pd :: r

/-- The Go function `setPortPower`; the result is its `error`. -/
def setPortPower (up : Upstream σ ρ δ) (w : World σ ρ δ)
    (macAddress portIdx state : String) : Option String × World σ ρ δ :=
  match Atoi portIdx with
  | .error e =>
    (some ("error getting integer value from port " ++ portIdx ++ ": " ++ e.Error), w)
  | .ok p =>
    match clientGetDeviceByMAC up w "default" macAddress with
    | (.error e, w1) =>
      (some ("error getting device by MAC Address " ++ macAddress ++ ": " ++ e), w1)
    | (.ok dev, w1) =>
      match setPortPowerLoop p state dev.PortOverrides with
      | none => (none, w1)
      | some overrides =>
        match clientUpdateDevice up w1 "default" { dev with PortOverrides := overrides } with
        | (.error e, w2) => (some ("error updating device: " ++ e), w2)
        | (.ok _, w2) => (none, w2)

/-! ## Configuration and the RPC envelopes -/

/-- Modelled from the spec: the type `config.Machine` (package `config` is not
under `src/`), "a `{MAC address, port index}` pair"; `main.go` passes both fields
as strings. -/
structure Machine where
  MacAddress : String
  PortIdx : String
  deriving DecidableEq, Repr

/-- Modelled from the spec: the type `config.Config` (package `config` is not
under `src/`), "upstream credentials/endpoint and a mapping from logical host
names to `{mac_address, port_idx}`"; the Go map is a list of key/value pairs
read by first match. -/
structure Config where
  Username : String
  Password : String
  APIEndpoint : String
  Machines : List (String × Machine)
  deriving DecidableEq, Repr

/-- The zero value of `config.Machine`. -/
def Machine.zero : Machine := { MacAddress := "", PortIdx := "" }

/-- The zero value of `config.Config`: empty strings and a nil map. -/
def Config.zero : Config := { Username := "", Password := "", APIEndpoint := "", Machines := [] }

/-- The index expression `cfg.Machines[host]`: the zero value for an absent key. -/
def Config.machine (cfg : Config) (host : String) : Machine :=
  match cfg.Machines.find? fun kv => kv.1 = host with
  | some kv => kv.2
  | none => Machine.zero

/-- Modelled from the spec: the constant `rpc.PowerGetMethod` (package `rpc` is
not under `src/`). -/
def PowerGetMethod : String := "power.get"

/-- Modelled from the spec: the constant `rpc.PowerSetMethod`. -/
def PowerSetMethod : String := "power.set"

/-- Modelled from the spec: the constant `rpc.BootDeviceMethod`. -/
def BootDeviceMethod : String := "boot.device"

/-- Modelled from the spec: the constant `rpc.PingMethod`. -/
def PingMethod : String := "ping"

/-- Modelled from the spec: the dynamic value of `req.Params` (package `rpc` is
not under `src/`): a set-power payload `{state}`, a boot-device payload
`{device, persistent, efi_boot}`, or a value of any other type (nil included). -/
inductive Params where
  | PowerSetParams (State : String)
  | BootDeviceParams (Device : String) (Persistent EFIBoot : Bool)
  | other
  deriving DecidableEq, Repr

/-- Modelled from the spec: the type `rpc.RequestPayload`, `{id, host, method,
params}`; the identifier is an integer as in the spec's example. -/
structure RequestPayload where
  ID : Int
  Host : String
  Method : String
  Params : Params
  deriving DecidableEq, Repr

/-- Modelled from the spec: the type `rpc.ResponsePayload`, `{id, host, result}`;
`main.go` stores only strings in `Result`, and `none` is the nil interface. -/
structure ResponsePayload where
  ID : Int
  Host : String
  Result : Option String
  deriving DecidableEq, Repr

/-! ## The HTTP response -/

/-- One write to the response body: a formatted text, or the bytes
`json.Marshal` renders for a response payload (the encoding itself is outside
the model; for a struct value it is never empty). -/
inductive Chunk where
  | text (s : String)
  | json (rp : ResponsePayload)
  deriving DecidableEq, Repr

/-- The `http.ResponseWriter` of one request: the status code once the header
is written, and the writes to the body in order. -/
structure ResponseWriter where
  status : Option Nat
  body : List Chunk
  deriving DecidableEq, Repr

/-- The response writer handed to a handler. -/
def ResponseWriter.fresh : ResponseWriter := { status := none, body := [] }

/-- The method `WriteHeader`: only the first status code counts. -/
def ResponseWriter.WriteHeader (w : ResponseWriter) (code : Nat) : ResponseWriter :=
  match w.status with
  | some _ => w
  | none => { w with status := some code }

/-- The method `Write` (also behind `fmt.Fprintf(w, ...)`): a first write without
a header sends status 200. -/
def ResponseWriter.Write (w : ResponseWriter) (c : Chunk) : ResponseWriter :=
  { status := some (w.status.getD 200), body := w.body ++ [c] }

/-- What a handler leaves behind: the response, the upstream world, and the
message of `log.Fatalf` when the handler ended the process. -/
structure Outcome (σ ρ δ : Type) where
  resp : ResponseWriter
  world : World σ ρ δ
  fatal : Option String

/-! ## Package-level variables and `main` -/

/-- The fields of `lazyClient` which `main` sets (the type is declared outside
`main.go`). -/
structure lazyClient where
  user : String
  pass : String
  baseURL : String
  insecure : Bool
  deriving DecidableEq, Repr

/-- The package-level variables `client` and `cfg` of `main.go`; a nil `client`
is `none`. -/
structure Globals where
  client : Option lazyClient
  cfg : Config
  deriving DecidableEq, Repr

/-- The package-level variables before `main` runs: `client` is nil and `cfg`
is the zero value. -/
def Globals.initial : Globals := { client := none, cfg := Config.zero }

/-- The Go function `main` up to the point where the server starts listening:
the package-level variables it leaves, or the message of `log.Fatalf`.
`getConfig` stands for `config.GetConfig`.  The statement
`cfg, err := config.GetConfig(filePath)` declares a variable `cfg` local to
`main`; the package-level `cfg` is not assigned. -/
def main (getConfig : String → Except String Config) (filePath : String) (g : Globals) :
    Except String Globals :=
  match getConfig filePath with
  | .error e => .error ("error reading YAML file: " ++ e)
  | .ok cfg =>
    .ok { g with
      client := some { user := cfg.Username, pass := cfg.Password,
                        baseURL := cfg.APIEndpoint, insecure := true } }

/-! ## The handlers -/

/-- The end of `RPCHandler`: `b, _ := json.Marshal(rp)` and `w.Write(b)`. -/
def writeResponse (w : ResponseWriter) (rp : ResponsePayload) (world : World σ ρ δ) :
    Outcome σ ρ δ :=
  { resp := w.Write (Chunk.json rp), world := world, fatal := none }

/-- The Go function `RPCHandler`, on the result of decoding the request body
and with the package-level variables `g`.  Each `log.Fatalf` ends the process,
so the statements which follow it in the source are never executed. -/
def RPCHandler [Inhabited ρ] (up : Upstream σ ρ δ) (g : Globals) (world : World σ ρ δ)
    (decoded : Except String RequestPayload) : Outcome σ ρ δ :=
  let w := ResponseWriter.fresh
  match decoded with
  | .error _ => { resp := w.WriteHeader 400, world := world, fatal := none }
  | .ok req =>
    let machine := g.cfg.machine req.Host
    let rp : ResponsePayload := { ID := req.ID, Host := req.Host, Result := none }
    if req.Method = PowerGetMethod then
      match GetPower up world machine.MacAddress machine.PortIdx with
      | (r, world1) =>
        match r.err with
        | some e =>
          { resp := w, world := world1,
            fatal := some ("error getting power state for MAC Address " ++ machine.MacAddress
              ++ ", Port Index " ++ machine.PortIdx ++ ": " ++ e) }
        | none => writeResponse w { rp with Result := some r.state } world1
    else if req.Method = PowerSetMethod then
      match req.Params with
      | .PowerSetParams state =>
        match setPortPower up world machine.MacAddress machine.PortIdx state with
        | (some e, world1) =>
          { resp := w, world := world1,
            fatal := some ("error setting power on for MAC Address " ++ machine.MacAddress
              ++ ", Port Index " ++ machine.PortIdx ++ ": " ++ e) }
        | (none, world1) => writeResponse w rp world1
      | _ =>
        { resp := w, world := world, fatal := some "error asserting params to PowerSetParams" }
    else if req.Method = BootDeviceMethod then
      match req.Params with
      | .BootDeviceParams device persistent efiBoot =>
        writeResponse
          (w.Write (Chunk.text ("boot device request for MAC Address " ++ machine.MacAddress
            ++ ", Port Index " ++ machine.PortIdx ++ ", Device " ++ device
            ++ ", Persistent " ++ toString persistent ++ ", EFIBoot " ++ toString efiBoot)))
          rp world
      | _ =>
        { resp := w, world := world, fatal := some "error asserting params to BootDeviceParams" }
    else if req.Method = PingMethod then
      writeResponse w { rp with Result := some "pong" } world
    else
      writeResponse (w.WriteHeader 404) rp world

/-- The Go function `QueryHandler`, on the two route variables `mac_address`
and `port_idx`. -/
def QueryHandler [Inhabited ρ] (up : Upstream σ ρ δ) (world : World σ ρ δ)
    (macAddress portIdx : String) : Outcome σ ρ δ :=
  let w := ResponseWriter.fresh
  match getPort up world macAddress portIdx with
  | (r, world1) =>
    match r.err with
    | some e =>
      { resp := w.Write (Chunk.text ("error setting power on for MAC Address " ++ macAddress
          ++ ", Port Index " ++ portIdx ++ ": " ++ e)),
        world := world1, fatal := none }
    | none =>
      let mode := r.port.PoeMode
      if mode = "auto" then
        { resp := w.Write (Chunk.text "status : running"), world := world1, fatal := none }
      else if mode = "off" then
        { resp := w.Write (Chunk.text "status : stopped"), world := world1, fatal := none }
      else
        { resp := w.Write (Chunk.text ("query request for MAC Address " ++ macAddress
            ++ ", Port Index " ++ portIdx)),
          world := world1, fatal := none }

/-! ## A store as upstream -/

/-- Modelled from the spec: the upstream controller (the client type and the
API behind it are not under `src/`) as a store holding one device record:
`GetDeviceByMAC` returns the stored record and `UpdateDevice` replaces it. -/
def storeUpstream : Upstream (Device ρ δ) ρ δ where
  GetDeviceByMAC := fun stored _ _ => (.ok stored, stored)
  UpdateDevice := fun _ _ dev => (.ok dev, dev)

/-- An upstream which serves one device record and refuses every update with
the message `msg`. -/
def readOnlyUpstream (msg : String) : Upstream (Device ρ δ) ρ δ where
  GetDeviceByMAC := fun stored _ _ => (.ok stored, stored)
  UpdateDevice := fun stored _ _ => (.error msg, stored)

/-! ## Notions used in the statements, and sample data -/

/-- The first override of a list whose `PortIDX` is `p`, and the zero value
when there is none: the port which the statements about `GetPower` refer to. -/
def firstMatch [Inhabited ρ] (p : Int) (l : List (DevicePortOverrides ρ)) :
    DevicePortOverrides ρ :=
  (l.find? fun pd => decide (pd.PortIDX = p)).getD DevicePortOverrides.zero

/-- A switch with three port overrides: port 1 powered, port 2 unpowered,
port 3 in a mode which is neither. -/
def sampleDevice : Device Unit Unit :=
  { ID := "sw1",
    PortOverrides := [⟨1, "auto", ()⟩, ⟨2, "off", ()⟩, ⟨3, "passthrough", ()⟩],
    Other := () }

/-- The overrides `l` with the PoE mode of every override of index `p` set to
`mode`; an override of another index is unchanged. -/
def withModeAt (p : Int) (mode : String) (l : List (DevicePortOverrides ρ)) :
    List (DevicePortOverrides ρ) :=
  l.map fun x => if x.PortIDX = p then { x with PoeMode := mode } else x

/-- A switch which lists port 1 twice, both entries unpowered, and port 2
unpowered. -/
def twinDevice : Device Unit Unit :=
  { ID := "sw1", PortOverrides := [⟨1, "off", ()⟩, ⟨1, "off", ()⟩, ⟨2, "off", ()⟩],
    Other := () }

/-- The switch with the twin entries as upstream state, before any call. -/
def twinWorld : World (Device Unit Unit) Unit Unit := { state := twinDevice, calls := [] }

/-- A switch which lists port 1 twice, first powered, then unpowered. -/
def duplicateDevice : Device Unit Unit :=
  { ID := "sw1", PortOverrides := [⟨1, "auto", ()⟩, ⟨1, "off", ()⟩], Other := () }

/-- The sample switch as upstream state, before any call. -/
def sampleWorld : World (Device Unit Unit) Unit Unit := { state := sampleDevice, calls := [] }

/-- The switch with the duplicated port as upstream state, before any call. -/
def duplicateWorld : World (Device Unit Unit) Unit Unit :=
  { state := duplicateDevice, calls := [] }

/-- A configuration file with one machine, `node1`, on port 2. -/
def sampleConfig : Config :=
  { Username := "admin", Password := "secret", APIEndpoint := "https://unifi.local",
    Machines := [("node1", { MacAddress := "AA:BB:CC:DD:EE:FF", PortIdx := "2" })] }

/-- The package-level variables after `main` has read `sampleConfig`. -/
def startedGlobals : Globals :=
  { client := some { user := "admin", pass := "secret", baseURL := "https://unifi.local",
                     insecure := true },
    cfg := Config.zero }

/-- Package-level variables in which `node1` has the port index `abc`. -/
def badPortGlobals : Globals :=
  { client := none,
    cfg := { Config.zero with
      Machines := [("node1", { MacAddress := "AA:BB:CC:DD:EE:FF", PortIdx := "abc" })] } }

set_option maxRecDepth 8000

/-! ## Lemmas on the two loops -/

theorem getPortLoop_eq_firstMatch [Inhabited ρ] (p : Int) (l : List (DevicePortOverrides ρ)) :
    getPortLoop p l = firstMatch p l := by
  induction l with
  | nil => rfl
  | cons pd rest ih =>
    by_cases h : pd.PortIDX = p
    · simp [getPortLoop, firstMatch, List.find?, h]
    · simpa [getPortLoop, firstMatch, List.find?, h] using ih

theorem firstMatch_unique [Inhabited ρ] (p : Int) (pre post : List (DevicePortOverrides ρ))
    (pd : DevicePortOverrides ρ) (hpd : pd.PortIDX = p) (hpre : ∀ x ∈ pre, x.PortIDX ≠ p) :
    firstMatch p (pre ++ pd :: post) = pd := by
  induction pre with
  | nil => simp [firstMatch, List.find?, hpd]
  | cons x rest ih =>
    have h1 : x.PortIDX ≠ p := hpre x (List.mem_cons_self _ _)
    have h2 := ih fun y hy => hpre y (List.mem_cons_of_mem _ hy)
    simpa [firstMatch, List.find?, h1] using h2

theorem exists_split_of_countP_one (p : Int) (l : List (DevicePortOverrides ρ))
    (h : l.countP (fun x => decide (x.PortIDX = p)) = 1) :
    ∃ pre pd post, l = pre ++ pd :: post ∧ pd.PortIDX = p ∧
      (∀ x ∈ pre, x.PortIDX ≠ p) ∧ (∀ x ∈ post, x.PortIDX ≠ p) := by
  induction l with
  | nil => simp at h
  | cons x rest ih =>
    by_cases hx : x.PortIDX = p
    · refine ⟨[], x, rest, rfl, hx, by simp, ?_⟩
      have h0 : rest.countP (fun x => decide (x.PortIDX = p)) = 0 := by
        simpa [List.countP_cons, hx] using h
      intro y hy
      have := (List.countP_eq_zero.mp h0) y hy
      simpa using this
    · have h1 : rest.countP (fun x => decide (x.PortIDX = p)) = 1 := by
        simpa [List.countP_cons, hx] using h
      obtain ⟨pre, pd, post, hl, hpd, hpre, hpost⟩ := ih h1
      refine ⟨x :: pre, pd, post, by simp [hl], hpd, ?_, hpost⟩
      intro y hy
      rcases List.mem_cons.mp hy with rfl | hy
      · exact hx
      · exact hpre y hy

theorem setPortPowerLoop_no_match (p : Int) (state : String) (l : List (DevicePortOverrides ρ))
    (h : ∀ x ∈ l, x.PortIDX ≠ p) : setPortPowerLoop p state l = some l := by
  induction l with
  | nil => rfl
  | cons pd rest ih =>
    have h1 : pd.PortIDX ≠ p := h pd (List.mem_cons_self _ _)
    have h2 := ih fun x hx => h x (List.mem_cons_of_mem _ hx)
    simp [setPortPowerLoop, h1, h2]

theorem setPortPowerLoop_append (p : Int) (state : String) (pre l : List (DevicePortOverrides ρ))
    (h : ∀ x ∈ pre, x.PortIDX ≠ p) :
    setPortPowerLoop p state (pre ++ l) = (setPortPowerLoop p state l).map fun r => pre ++ r := by
  induction pre with
  | nil => simp
  | cons pd rest ih =>
    have h1 : pd.PortIDX ≠ p := h pd (List.mem_cons_self _ _)
    have h2 := ih fun x hx => h x (List.mem_cons_of_mem _ hx)
    simp [setPortPowerLoop, h1, h2, Option.map_map, Function.comp_def]

theorem setPortPowerLoop_other_state (p : Int) (state : String)
    (l : List (DevicePortOverrides ρ)) (hon : state ≠ "on") (hoff : state ≠ "off") :
    setPortPowerLoop p state l = some l := by
  induction l with
  | nil => rfl
  | cons pd rest ih => simp [setPortPowerLoop, hon, hoff, ih]

theorem setPortPowerLoop_first_in_effect (p : Int) (state mode : String)
    (l : List (DevicePortOverrides ρ)) (pd : DevicePortOverrides ρ)
    (hs : (state = "on" ∧ mode = "auto") ∨ (state = "off" ∧ mode = "off"))
    (hfind : l.find? (fun x => decide (x.PortIDX = p)) = some pd)
    (hmode : pd.PoeMode = mode) : setPortPowerLoop p state l = none := by
  induction l with
  | nil => simp at hfind
  | cons x rest ih =>
    by_cases hx : x.PortIDX = p
    · have hxpd : x = pd := by simpa [List.find?, hx] using hfind
      subst hxpd
      rcases hs with ⟨h1, h2⟩ | ⟨h1, h2⟩
      · subst h1; subst h2
        simp [setPortPowerLoop, hx, hmode]
      · subst h1; subst h2
        simp [setPortPowerLoop, hx, hmode]
    · have hrest : rest.find? (fun x => decide (x.PortIDX = p)) = some pd := by
        simpa [List.find?, hx] using hfind
      simp [setPortPowerLoop, hx, ih hrest]

theorem setPortPowerLoop_unique (p : Int) (state mode : String)
    (pre post : List (DevicePortOverrides ρ)) (pd : DevicePortOverrides ρ)
    (hs : (state = "on" ∧ mode = "auto") ∨ (state = "off" ∧ mode = "off"))
    (hpd : pd.PortIDX = p) (hmode : pd.PoeMode ≠ mode)
    (hpre : ∀ x ∈ pre, x.PortIDX ≠ p) (hpost : ∀ x ∈ post, x.PortIDX ≠ p) :
    setPortPowerLoop p state (pre ++ pd :: post) =
      some (pre ++ { pd with PoeMode := mode } :: post) := by
  rw [setPortPowerLoop_append p state pre _ hpre]
  have hrest := setPortPowerLoop_no_match p state post hpost
  rcases hs with ⟨h1, h2⟩ | ⟨h1, h2⟩
  · subst h1; subst h2
    simp [setPortPowerLoop, hpd, hmode, hrest]
  · subst h1; subst h2
    simp [setPortPowerLoop, hpd, hmode, hrest]

theorem setPortPowerLoop_none_in_effect (p : Int) (state mode : String)
    (l : List (DevicePortOverrides ρ))
    (hs : (state = "on" ∧ mode = "auto") ∨ (state = "off" ∧ mode = "off"))
    (hnone : ∀ x ∈ l, x.PortIDX = p → x.PoeMode ≠ mode) :
    setPortPowerLoop p state l = some (withModeAt p mode l) := by
  induction l with
  | nil => rfl
  | cons pd rest ih =>
    have hrest := ih fun x hx => hnone x (List.mem_cons_of_mem _ hx)
    by_cases hpd : pd.PortIDX = p
    · have hmode : pd.PoeMode ≠ mode := hnone pd (List.mem_cons_self _ _) hpd
      rcases hs with ⟨h1, h2⟩ | ⟨h1, h2⟩
      · subst h1; subst h2
        simp [setPortPowerLoop, hpd, hmode, hrest, withModeAt]
      · subst h1; subst h2
        simp [setPortPowerLoop, hpd, hmode, hrest, withModeAt]
    · simp [setPortPowerLoop, hpd, hrest, withModeAt]

/-! ## Lemmas on `getPort`, `GetPower` and the texts of `QueryHandler` -/

theorem getPort_of_lookup [Inhabited ρ] (up : Upstream σ ρ δ) (w : World σ ρ δ)
    (macAddress portIdx : String) (p : Int) (dev : Device ρ δ)
    (hp : Atoi portIdx = .ok p)
    (hdev : (up.GetDeviceByMAC w.state "default" macAddress).1 = .ok dev) :
    getPort up w macAddress portIdx =
      ({ deviceId := dev.ID, port := firstMatch p dev.PortOverrides, err := none },
       { state := (up.GetDeviceByMAC w.state "default" macAddress).2,
         calls := w.calls ++ [Call.GetDeviceByMAC "default" macAddress] }) := by
  simp [getPort, hp, clientGetDeviceByMAC, hdev, getPortLoop_eq_firstMatch]

theorem GetPower_of_lookup [Inhabited ρ] (up : Upstream σ ρ δ) (w : World σ ρ δ)
    (macAddress portIdx : String) (p : Int) (dev : Device ρ δ)
    (hp : Atoi portIdx = .ok p)
    (hdev : (up.GetDeviceByMAC w.state "default" macAddress).1 = .ok dev) :
    (GetPower up w macAddress portIdx).1 =
      { state := if (firstMatch p dev.PortOverrides).PoeMode = "auto" then "on"
                 else if (firstMatch p dev.PortOverrides).PoeMode = "off" then "off" else "",
        err := none } := by
  simp only [GetPower, getPort_of_lookup up w macAddress portIdx p dev hp hdev]
  split_ifs <;> rfl

theorem query_text_ne_running (s : String) :
    "query request for MAC Address " ++ s ≠ "status : running" := by
  intro h
  have h2 := congrArg (fun t => t.data.head?) h
  simp [String.data_append] at h2

theorem query_text_ne_stopped (s : String) :
    "query request for MAC Address " ++ s ≠ "status : stopped" := by
  intro h
  have h2 := congrArg (fun t => t.data.head?) h
  simp [String.data_append] at h2

/-! ## `GetPower` -/

/-- Claim C1: when the port index parses as the integer `p` and the upstream
lookup returns `dev`, `GetPower` returns no error, and with `mode` the PoE
mode of the first override of `dev` whose `PortIDX` is `p` (of the zero-valued
port when there is none) the state is `"on"` exactly when `mode` is `"auto"`,
`"off"` exactly when `mode` is `"off"`, and the empty string for every other
mode; in particular it is empty when no override has index `p`. -/
theorem GetPower_state_of_first_match [Inhabited ρ] (up : Upstream σ ρ δ) (w : World σ ρ δ)
    (macAddress portIdx : String) (p : Int) (dev : Device ρ δ)
    (hp : Atoi portIdx = .ok p)
    (hdev : (up.GetDeviceByMAC w.state "default" macAddress).1 = .ok dev) :
    (GetPower up w macAddress portIdx).1.err = none ∧
    ((GetPower up w macAddress portIdx).1.state = "on" ↔
      (firstMatch p dev.PortOverrides).PoeMode = "auto") ∧
    ((GetPower up w macAddress portIdx).1.state = "off" ↔
      (firstMatch p dev.PortOverrides).PoeMode = "off") ∧
    ((firstMatch p dev.PortOverrides).PoeMode ≠ "auto" →
      (firstMatch p dev.PortOverrides).PoeMode ≠ "off" →
      (GetPower up w macAddress portIdx).1.state = "") ∧
    ((∀ pd ∈ dev.PortOverrides, pd.PortIDX ≠ p) →
      (GetPower up w macAddress portIdx).1.state = "") := by
  rw [GetPower_of_lookup up w macAddress portIdx p dev hp hdev]
  refine ⟨rfl, ?_, ?_, ?_, ?_⟩
  · by_cases h1 : (firstMatch p dev.PortOverrides).PoeMode = "auto"
    · simp [h1]
    · by_cases h2 : (firstMatch p dev.PortOverrides).PoeMode = "off" <;> simp [h1, h2]
  · by_cases h1 : (firstMatch p dev.PortOverrides).PoeMode = "auto"
    · simp [h1]
    · by_cases h2 : (firstMatch p dev.PortOverrides).PoeMode = "off" <;> simp [h1, h2]
  · intro h1 h2
    simp [h1, h2]
  · intro hno
    have hz : firstMatch p dev.PortOverrides = DevicePortOverrides.zero := by
      unfold firstMatch
      rw [List.find?_eq_none.mpr]
      · rfl
      · intro x hx
        simpa using hno x hx
    simp [hz, DevicePortOverrides.zero]

/-- Claim C1 at the sample switch, port 2 (mode `"off"`). -/
theorem GetPower_state_of_first_match_witness :
    Atoi "2" = .ok 2 ∧
    ((storeUpstream : Upstream (Device Unit Unit) Unit Unit).GetDeviceByMAC sampleWorld.state
      "default" "AA:BB:CC:DD:EE:FF").1 = .ok sampleDevice ∧
    (firstMatch 2 sampleDevice.PortOverrides).PoeMode = "off" ∧
    (GetPower storeUpstream sampleWorld "AA:BB:CC:DD:EE:FF" "2").1.err = none ∧
    ((GetPower storeUpstream sampleWorld "AA:BB:CC:DD:EE:FF" "2").1.state = "off" ↔
      (firstMatch 2 sampleDevice.PortOverrides).PoeMode = "off") :=
  ⟨by decide, rfl, by decide,
    (GetPower_state_of_first_match storeUpstream sampleWorld "AA:BB:CC:DD:EE:FF" "2" 2
      sampleDevice (by decide) rfl).1,
    (GetPower_state_of_first_match storeUpstream sampleWorld "AA:BB:CC:DD:EE:FF" "2" 2
      sampleDevice (by decide) rfl).2.2.1⟩

/-! ## `setPortPower` -/

/-- Claim C2: when the port index parses as `p`, the lookup returns `dev`, the
desired state is `"on"` or `"off"` with target mode `"auto"` or `"off"`, and the
first override of `dev` with `PortIDX = p` already has the target mode, then
`setPortPower` returns nil and the only upstream call it makes is the lookup:
no `UpdateDevice` call is issued. -/
theorem setPortPower_in_effect_no_update (up : Upstream σ ρ δ) (w : World σ ρ δ)
    (macAddress portIdx state mode : String) (p : Int) (dev : Device ρ δ)
    (pd : DevicePortOverrides ρ)
    (hp : Atoi portIdx = .ok p)
    (hdev : (up.GetDeviceByMAC w.state "default" macAddress).1 = .ok dev)
    (hs : (state = "on" ∧ mode = "auto") ∨ (state = "off" ∧ mode = "off"))
    (hfind : dev.PortOverrides.find? (fun x => decide (x.PortIDX = p)) = some pd)
    (hmode : pd.PoeMode = mode) :
    (setPortPower up w macAddress portIdx state).1 = none ∧
    (setPortPower up w macAddress portIdx state).2.calls =
      w.calls ++ [Call.GetDeviceByMAC "default" macAddress] ∧
    (setPortPower up w macAddress portIdx state).2.state =
      (up.GetDeviceByMAC w.state "default" macAddress).2 := by
  have hloop := setPortPowerLoop_first_in_effect p state mode dev.PortOverrides pd hs hfind hmode
  simp [setPortPower, hp, clientGetDeviceByMAC, hdev, hloop]

/-- Claim C2 at the sample switch: port 2 is already `"off"`. -/
theorem setPortPower_in_effect_no_update_witness :
    Atoi "2" = .ok 2 ∧
    sampleDevice.PortOverrides.find? (fun x => decide (x.PortIDX = 2)) = some ⟨2, "off", ()⟩ ∧
    (setPortPower storeUpstream sampleWorld "AA:BB:CC:DD:EE:FF" "2" "off").1 = none ∧
    (setPortPower storeUpstream sampleWorld "AA:BB:CC:DD:EE:FF" "2" "off").2.calls =
      sampleWorld.calls ++ [Call.GetDeviceByMAC "default" "AA:BB:CC:DD:EE:FF"] :=
  ⟨by decide, by decide,
    (setPortPower_in_effect_no_update storeUpstream sampleWorld "AA:BB:CC:DD:EE:FF" "2" "off"
      "off" 2 sampleDevice ⟨2, "off", ()⟩ (by decide) rfl (Or.inr ⟨rfl, rfl⟩) (by decide) rfl).1,
    (setPortPower_in_effect_no_update storeUpstream sampleWorld "AA:BB:CC:DD:EE:FF" "2" "off"
      "off" 2 sampleDevice ⟨2, "off", ()⟩ (by decide) rfl (Or.inr ⟨rfl, rfl⟩) (by decide)
      rfl).2.1⟩

/-- Claim C3 fails as stated: the switch which lists port 1 twice has an
override with `PortIDX = 1` whose mode (`"off"`) is not the target mode of
`"on"`, yet `setPortPower` for port 1 and `"on"` returns nil at the first
override, which is already `"auto"`, and issues no `UpdateDevice` call. -/
theorem setPortPower_duplicate_index_no_update :
    Atoi "1" = .ok 1 ∧
    (∃ pd ∈ duplicateDevice.PortOverrides, pd.PortIDX = 1 ∧ pd.PoeMode ≠ "auto") ∧
    (setPortPower storeUpstream duplicateWorld "AA:BB:CC:DD:EE:FF" "1" "on").1 = none ∧
    (setPortPower storeUpstream duplicateWorld "AA:BB:CC:DD:EE:FF" "1" "on").2.calls =
      [Call.GetDeviceByMAC "default" "AA:BB:CC:DD:EE:FF"] :=
  ⟨by decide, ⟨⟨1, "off", ()⟩, by decide, rfl, by decide⟩, by decide, by decide⟩

/-- Claim C3, amended: when the port index parses as `p`, the lookup returns
`dev`, the desired state is `"on"` or `"off"` with target mode `mode`, `dev`
has an override `pd` with `PortIDX = p` whose mode is not the target mode, and
no override of `dev` with `PortIDX = p` already has the target mode, then
`setPortPower` makes the lookup and exactly one `UpdateDevice` call.  The
record passed to it is the looked-up record in which the overrides with
`PortIDX = p` have the target mode (`pd` among them, at its position): every
override with a different `PortIDX` and every other field are unchanged. -/
theorem setPortPower_none_in_effect_single_update (up : Upstream σ ρ δ) (w : World σ ρ δ)
    (macAddress portIdx state mode : String) (p : Int) (dev : Device ρ δ)
    (pd : DevicePortOverrides ρ)
    (hp : Atoi portIdx = .ok p)
    (hdev : (up.GetDeviceByMAC w.state "default" macAddress).1 = .ok dev)
    (hs : (state = "on" ∧ mode = "auto") ∨ (state = "off" ∧ mode = "off"))
    (hmem : pd ∈ dev.PortOverrides) (hpd : pd.PortIDX = p)
    (hnone : ∀ x ∈ dev.PortOverrides, x.PortIDX = p → x.PoeMode ≠ mode) :
    (setPortPower up w macAddress portIdx state).2.calls =
      w.calls ++ [Call.GetDeviceByMAC "default" macAddress,
        Call.UpdateDevice "default"
          { dev with PortOverrides := withModeAt p mode dev.PortOverrides }] ∧
    pd.PoeMode ≠ mode ∧
    { pd with PoeMode := mode } ∈ withModeAt p mode dev.PortOverrides ∧
    (∀ x ∈ withModeAt p mode dev.PortOverrides, x.PortIDX = p → x.PoeMode = mode) ∧
    (∀ x ∈ dev.PortOverrides, x.PortIDX ≠ p → x ∈ withModeAt p mode dev.PortOverrides) ∧
    (withModeAt p mode dev.PortOverrides).map (fun x => (x.PortIDX, x.Other)) =
      dev.PortOverrides.map (fun x => (x.PortIDX, x.Other)) := by
  have hloop := setPortPowerLoop_none_in_effect p state mode dev.PortOverrides hs hnone
  refine ⟨?_, hnone pd hmem hpd, ?_, ?_, ?_, ?_⟩
  · simp only [setPortPower, hp, clientGetDeviceByMAC, hdev, hloop, clientUpdateDevice]
    cases hu : (up.UpdateDevice (up.GetDeviceByMAC w.state "default" macAddress).2 "default"
        { dev with PortOverrides := withModeAt p mode dev.PortOverrides }).1 with
    | error e => simp [hu]
    | ok d => simp [hu]
  · exact List.mem_map.mpr ⟨pd, hmem, by simp [hpd]⟩
  · intro x hx hxp
    obtain ⟨y, _, hy⟩ := List.mem_map.mp hx
    by_cases hyp : y.PortIDX = p
    · simp only [hyp, if_true] at hy
      rw [← hy]
    · simp only [hyp, if_false] at hy
      rw [← hy] at hxp
      exact absurd hxp hyp
  · intro x hx hxp
    exact List.mem_map.mpr ⟨x, hx, by simp [hxp]⟩
  · simp only [withModeAt, List.map_map]
    apply List.map_congr_left
    intro x _
    by_cases hxp : x.PortIDX = p <;> simp [hxp]

/-- Claim C3, amended, at the switch which lists port 1 twice, both entries
unpowered: switching port 1 on gives one update with both entries `"auto"`. -/
theorem setPortPower_none_in_effect_single_update_witness :
    Atoi "1" = .ok 1 ∧
    (⟨1, "off", ()⟩ : DevicePortOverrides Unit) ∈ twinDevice.PortOverrides ∧
    (∀ x ∈ twinDevice.PortOverrides, x.PortIDX = 1 → x.PoeMode ≠ "auto") ∧
    (setPortPower storeUpstream twinWorld "AA:BB:CC:DD:EE:FF" "1" "on").2.calls =
      twinWorld.calls ++ [Call.GetDeviceByMAC "default" "AA:BB:CC:DD:EE:FF",
        Call.UpdateDevice "default"
          { twinDevice with
            PortOverrides := withModeAt 1 "auto" twinDevice.PortOverrides }] ∧
    withModeAt 1 "auto" twinDevice.PortOverrides =
      [⟨1, "auto", ()⟩, ⟨1, "auto", ()⟩, ⟨2, "off", ()⟩] :=
  ⟨by decide, by decide, by decide,
    (setPortPower_none_in_effect_single_update storeUpstream twinWorld "AA:BB:CC:DD:EE:FF"
      "1" "on" "auto" 1 twinDevice ⟨1, "off", ()⟩ (by decide) rfl (Or.inl ⟨rfl, rfl⟩)
      (by decide) rfl (by decide)).1,
    by decide⟩

/-- Claim C4 fails as stated: for the desired state `"reboot"` the function
still issues an `UpdateDevice` call, and when the upstream refuses that call
`setPortPower` returns an error. -/
theorem setPortPower_reboot_update_error :
    Atoi "2" = .ok 2 ∧
    ((readOnlyUpstream "api.err.NoPermission" :
        Upstream (Device Unit Unit) Unit Unit).GetDeviceByMAC sampleWorld.state
      "default" "AA:BB:CC:DD:EE:FF").1 = .ok sampleDevice ∧
    (setPortPower (readOnlyUpstream "api.err.NoPermission") sampleWorld
      "AA:BB:CC:DD:EE:FF" "2" "reboot").1 =
      some "error updating device: api.err.NoPermission" ∧
    (setPortPower (readOnlyUpstream "api.err.NoPermission") sampleWorld
      "AA:BB:CC:DD:EE:FF" "2" "reboot").2.calls =
      [Call.GetDeviceByMAC "default" "AA:BB:CC:DD:EE:FF",
        Call.UpdateDevice "default" sampleDevice] :=
  ⟨by decide, rfl, by decide, by decide⟩

/-- Claim C4, amended: for a desired state other than `"on"` and `"off"`, a
numeric port index and a looked-up device, `setPortPower` changes no port
override: after the lookup it issues exactly one `UpdateDevice` call, which
carries the looked-up record as it is, and it returns nil exactly when that
call succeeds; when the call fails it returns `error updating device:`
followed by the cause. -/
theorem setPortPower_other_state_writes_back (up : Upstream σ ρ δ) (w : World σ ρ δ)
    (macAddress portIdx state : String) (p : Int) (dev : Device ρ δ)
    (hp : Atoi portIdx = .ok p)
    (hdev : (up.GetDeviceByMAC w.state "default" macAddress).1 = .ok dev)
    (hon : state ≠ "on") (hoff : state ≠ "off") :
    (setPortPower up w macAddress portIdx state).2.calls =
      w.calls ++ [Call.GetDeviceByMAC "default" macAddress, Call.UpdateDevice "default" dev] ∧
    ((setPortPower up w macAddress portIdx state).1 = none ↔
      ∃ d, (up.UpdateDevice (up.GetDeviceByMAC w.state "default" macAddress).2
              "default" dev).1 = .ok d) ∧
    (∀ e, (up.UpdateDevice (up.GetDeviceByMAC w.state "default" macAddress).2
              "default" dev).1 = .error e →
      (setPortPower up w macAddress portIdx state).1 = some ("error updating device: " ++ e)) := by
  have hloop := setPortPowerLoop_other_state p state dev.PortOverrides hon hoff
  simp only [setPortPower, hp, clientGetDeviceByMAC, hdev, hloop, clientUpdateDevice]
  cases hu : (up.UpdateDevice (up.GetDeviceByMAC w.state "default" macAddress).2 "default" dev).1 with
  | error e => simp [hu]
  | ok d => simp [hu]

/-- Claim C4, amended, at the sample switch with the desired state `"reboot"`. -/
theorem setPortPower_other_state_writes_back_witness :
    Atoi "2" = .ok 2 ∧ "reboot" ≠ "on" ∧ "reboot" ≠ "off" ∧
    (setPortPower storeUpstream sampleWorld "AA:BB:CC:DD:EE:FF" "2" "reboot").2.calls =
      sampleWorld.calls ++ [Call.GetDeviceByMAC "default" "AA:BB:CC:DD:EE:FF",
        Call.UpdateDevice "default" sampleDevice] :=
  ⟨by decide, by decide, by decide,
    (setPortPower_other_state_writes_back storeUpstream sampleWorld "AA:BB:CC:DD:EE:FF" "2"
      "reboot" 2 sampleDevice (by decide) rfl (by decide) (by decide)).1⟩

/-! ## The handlers -/

/-- Claim C5, the code at port indices which are not integers.  On the RPC
path the error returned by `GetPower` or `setPortPower` reaches `log.Fatalf`:
the process ends and nothing is written to the response, both with the
package-level variables as `main` leaves them (every host resolves to the
port index `""`) and with a machine configured with the port index `abc`.
On the query path the handler returns normally and the body is the error
text. -/
theorem RPCHandler_bad_port_index_is_fatal :
    (∃ e, Atoi "" = .error e) ∧ (∃ e, Atoi "abc" = .error e) ∧
    (RPCHandler storeUpstream startedGlobals sampleWorld
        (.ok { ID := 1, Host := "node1", Method := PowerGetMethod,
               Params := Params.other })).fatal =
      some ("error getting power state for MAC Address , Port Index : " ++
        "error getting integer value from port : " ++
        "strconv.Atoi: parsing \"\": invalid syntax") ∧
    (RPCHandler storeUpstream badPortGlobals sampleWorld
        (.ok { ID := 1, Host := "node1", Method := PowerGetMethod,
               Params := Params.other })).fatal =
      some ("error getting power state for MAC Address AA:BB:CC:DD:EE:FF, Port Index abc: " ++
        "error getting integer value from port abc: " ++
        "strconv.Atoi: parsing \"abc\": invalid syntax") ∧
    (RPCHandler storeUpstream badPortGlobals sampleWorld
        (.ok { ID := 1, Host := "node1", Method := PowerGetMethod,
               Params := Params.other })).resp = ResponseWriter.fresh ∧
    (RPCHandler storeUpstream badPortGlobals sampleWorld
        (.ok { ID := 1, Host := "node1", Method := PowerSetMethod,
               Params := Params.PowerSetParams "on" })).fatal =
      some ("error setting power on for MAC Address AA:BB:CC:DD:EE:FF, Port Index abc: " ++
        "error getting integer value from port abc: " ++
        "strconv.Atoi: parsing \"abc\": invalid syntax") ∧
    (QueryHandler storeUpstream sampleWorld "AA:BB:CC:DD:EE:FF" "abc").fatal = none ∧
    (QueryHandler storeUpstream sampleWorld "AA:BB:CC:DD:EE:FF" "abc").resp =
      { status := some 200,
        body := [Chunk.text
          ("error setting power on for MAC Address AA:BB:CC:DD:EE:FF, Port Index abc: " ++
            "error getting integer value from port abc: " ++
            "strconv.Atoi: parsing \"abc\": invalid syntax")] } :=
  ⟨⟨_, rfl⟩, ⟨_, rfl⟩, by decide, by decide, by decide, by decide, by decide, by decide⟩

/-- Claim C6 fails as stated: for the method `power.cycle` the status is 404,
but the handler goes on to marshal the response payload and writes it, so the
body is not empty. -/
theorem RPCHandler_default_case_writes_json :
    "power.cycle" ≠ PowerGetMethod ∧ "power.cycle" ≠ PowerSetMethod ∧
    "power.cycle" ≠ BootDeviceMethod ∧ "power.cycle" ≠ PingMethod ∧
    (RPCHandler storeUpstream startedGlobals sampleWorld
        (.ok { ID := 1, Host := "node1", Method := "power.cycle",
               Params := Params.other })).resp =
      { status := some 404,
        body := [Chunk.json { ID := 1, Host := "node1", Result := none }] } ∧
    (RPCHandler storeUpstream startedGlobals sampleWorld
        (.ok { ID := 1, Host := "node1", Method := "power.cycle",
               Params := Params.other })).resp.body ≠ [] :=
  ⟨by decide, by decide, by decide, by decide, by decide, by decide⟩

/-- Claim C6, amended: for a decoded request whose method is none of
`power.get`, `power.set`, `boot.device` and `ping`, `RPCHandler` answers with
status 404 and a body which is the JSON encoding of the response payload with
the request's id and host and no result; it makes no upstream call and does
not end the process. -/
theorem RPCHandler_unknown_method [Inhabited ρ] (up : Upstream σ ρ δ) (g : Globals)
    (w : World σ ρ δ) (req : RequestPayload)
    (h1 : req.Method ≠ PowerGetMethod) (h2 : req.Method ≠ PowerSetMethod)
    (h3 : req.Method ≠ BootDeviceMethod) (h4 : req.Method ≠ PingMethod) :
    (RPCHandler up g w (.ok req)).resp =
      { status := some 404,
        body := [Chunk.json { ID := req.ID, Host := req.Host, Result := none }] } ∧
    (RPCHandler up g w (.ok req)).world.calls = w.calls ∧
    (RPCHandler up g w (.ok req)).fatal = none := by
  simp [RPCHandler, h1, h2, h3, h4, writeResponse, ResponseWriter.Write, ResponseWriter.fresh,
    ResponseWriter.WriteHeader]

/-- Claim C6, amended, at the method `power.cycle`. -/
theorem RPCHandler_unknown_method_witness :
    "power.cycle" ≠ PowerGetMethod ∧ "power.cycle" ≠ PowerSetMethod ∧
    "power.cycle" ≠ BootDeviceMethod ∧ "power.cycle" ≠ PingMethod ∧
    (RPCHandler storeUpstream startedGlobals sampleWorld
        (.ok { ID := 1, Host := "node1", Method := "power.cycle",
               Params := Params.other })).resp =
      { status := some 404,
        body := [Chunk.json { ID := 1, Host := "node1", Result := none }] } :=
  ⟨by decide, by decide, by decide, by decide,
    (RPCHandler_unknown_method storeUpstream startedGlobals sampleWorld
      { ID := 1, Host := "node1", Method := "power.cycle", Params := Params.other }
      (by decide) (by decide) (by decide) (by decide)).1⟩

/-- Claim C7, the code at a configuration which names `node1`: `main` sets
`client` from the configuration it read but leaves the package-level `cfg` at
its zero value, so `RPCHandler` resolves `node1` to the zero machine, not to
the configured MAC address and port 2; the `power.get` request then fails on
the port index `""` before any upstream call and ends the process. -/
theorem main_leaves_package_cfg_unset :
    sampleConfig.machine "node1" = { MacAddress := "AA:BB:CC:DD:EE:FF", PortIdx := "2" } ∧
    main (fun _ => .ok sampleConfig) "config.yaml" Globals.initial = .ok startedGlobals ∧
    startedGlobals.cfg.Machines = [] ∧
    startedGlobals.cfg.machine "node1" = { MacAddress := "", PortIdx := "" } ∧
    (RPCHandler storeUpstream startedGlobals sampleWorld
        (.ok { ID := 1, Host := "node1", Method := PowerGetMethod,
               Params := Params.other })).world.calls = [] ∧
    (RPCHandler storeUpstream startedGlobals sampleWorld
        (.ok { ID := 1, Host := "node1", Method := PowerGetMethod,
               Params := Params.other })).fatal =
      some ("error getting power state for MAC Address , Port Index : " ++
        "error getting integer value from port : " ++
        "strconv.Atoi: parsing \"\": invalid syntax") ∧
    (RPCHandler storeUpstream { startedGlobals with cfg := sampleConfig } sampleWorld
        (.ok { ID := 1, Host := "node1", Method := PowerGetMethod,
               Params := Params.other })).resp =
      { status := some 200,
        body := [Chunk.json { ID := 1, Host := "node1", Result := some "off" }] } :=
  ⟨by decide, by decide, rfl, by decide, by decide, by decide, by decide⟩

/-- Claim C8: for every decoded request with method `ping`, whatever its id,
host and params and whatever the configuration, `RPCHandler` makes no upstream
call, leaves the upstream state alone, does not end the process, and writes
exactly the JSON encoding of the response with the request's id and host and
the result `"pong"`, with status 200. -/
theorem RPCHandler_ping [Inhabited ρ] (up : Upstream σ ρ δ) (g : Globals) (w : World σ ρ δ)
    (req : RequestPayload) (hm : req.Method = PingMethod) :
    (RPCHandler up g w (.ok req)).resp =
      { status := some 200,
        body := [Chunk.json { ID := req.ID, Host := req.Host, Result := some "pong" }] } ∧
    (RPCHandler up g w (.ok req)).world.calls = w.calls ∧
    (RPCHandler up g w (.ok req)).world.state = w.state ∧
    (RPCHandler up g w (.ok req)).fatal = none := by
  simp [RPCHandler, hm, PingMethod, PowerGetMethod, PowerSetMethod, BootDeviceMethod,
    writeResponse, ResponseWriter.Write, ResponseWriter.fresh]

/-- Claim C8 at the request of the spec's example: id 1, host `node1`. -/
theorem RPCHandler_ping_witness :
    (RPCHandler storeUpstream startedGlobals sampleWorld
        (.ok { ID := 1, Host := "node1", Method := "ping", Params := Params.other })).resp =
      { status := some 200,
        body := [Chunk.json { ID := 1, Host := "node1", Result := some "pong" }] } ∧
    (RPCHandler storeUpstream startedGlobals sampleWorld
        (.ok { ID := 1, Host := "node1", Method := "ping",
               Params := Params.other })).world.calls = sampleWorld.calls :=
  ⟨(RPCHandler_ping storeUpstream startedGlobals sampleWorld
      { ID := 1, Host := "node1", Method := "ping", Params := Params.other } rfl).1,
    (RPCHandler_ping storeUpstream startedGlobals sampleWorld
      { ID := 1, Host := "node1", Method := "ping", Params := Params.other } rfl).2.1⟩

/-- Claim C9: whenever the port lookup `getPort` succeeds for a MAC address
and a port index, the body written by `QueryHandler` is exactly
`status : running` if and only if `GetPower` on the same inputs and the same
upstream state returns `"on"`, and exactly `status : stopped` if and only if
`GetPower` returns `"off"`. -/
theorem QueryHandler_agrees_with_GetPower [Inhabited ρ] (up : Upstream σ ρ δ) (w : World σ ρ δ)
    (macAddress portIdx : String)
    (hok : (getPort up w macAddress portIdx).1.err = none) :
    ((QueryHandler up w macAddress portIdx).resp.body = [Chunk.text "status : running"] ↔
      (GetPower up w macAddress portIdx).1.state = "on") ∧
    ((QueryHandler up w macAddress portIdx).resp.body = [Chunk.text "status : stopped"] ↔
      (GetPower up w macAddress portIdx).1.state = "off") := by
  have hr := query_text_ne_running (macAddress ++ ", Port Index " ++ portIdx)
  have hs := query_text_ne_stopped (macAddress ++ ", Port Index " ++ portIdx)
  simp only [String.append_assoc] at hr hs
  unfold QueryHandler GetPower
  simp only [hok]
  by_cases h1 : (getPort up w macAddress portIdx).1.port.PoeMode = "auto"
  · simp [h1, ResponseWriter.Write, ResponseWriter.fresh]
  · by_cases h2 : (getPort up w macAddress portIdx).1.port.PoeMode = "off"
    · simp [h1, h2, ResponseWriter.Write, ResponseWriter.fresh]
    · simp [h1, h2, ResponseWriter.Write, ResponseWriter.fresh, String.append_assoc, hr, hs]

/-- Claim C9 at the spec's example: port 2 of the sample switch has mode
`"off"` and the query answers `status : stopped`. -/
theorem QueryHandler_agrees_with_GetPower_witness :
    (getPort storeUpstream sampleWorld "AA:BB:CC:DD:EE:FF" "2").1.err = none ∧
    (QueryHandler storeUpstream sampleWorld "AA:BB:CC:DD:EE:FF" "2").resp.body =
      [Chunk.text "status : stopped"] ∧
    ((QueryHandler storeUpstream sampleWorld "AA:BB:CC:DD:EE:FF" "2").resp.body =
        [Chunk.text "status : stopped"] ↔
      (GetPower storeUpstream sampleWorld "AA:BB:CC:DD:EE:FF" "2").1.state = "off") :=
  ⟨by decide, by decide,
    (QueryHandler_agrees_with_GetPower storeUpstream sampleWorld "AA:BB:CC:DD:EE:FF" "2"
      (by decide)).2⟩

/-! ## Set, then get -/

/-- Claim C10: over the store upstream (`UpdateDevice` replaces the stored
record, `GetDeviceByMAC` returns it), for a stored device in which exactly one
override has `PortIDX = p`, a port index which parses as `p` and a desired
state `s` which is `"on"` or `"off"`, `setPortPower` returns nil and a
following `GetPower` returns `s` with no error. -/
theorem set_then_get_round_trip [Inhabited ρ] (stored : Device ρ δ) (calls : List (Call ρ δ))
    (macAddress portIdx state : String) (p : Int)
    (hp : Atoi portIdx = .ok p)
    (hs : state = "on" ∨ state = "off")
    (hone : stored.PortOverrides.countP (fun x => decide (x.PortIDX = p)) = 1) :
    (setPortPower storeUpstream ⟨stored, calls⟩ macAddress portIdx state).1 = none ∧
    (GetPower storeUpstream (setPortPower storeUpstream ⟨stored, calls⟩ macAddress portIdx state).2
        macAddress portIdx).1 = { state := state, err := none } := by
  obtain ⟨pre, pd, post, hl, hpd, hpre, hpost⟩ := exists_split_of_countP_one p _ hone
  obtain ⟨mode, hsm⟩ : ∃ mode, (state = "on" ∧ mode = "auto") ∨ (state = "off" ∧ mode = "off") := by
    rcases hs with h | h
    · exact ⟨"auto", Or.inl ⟨h, rfl⟩⟩
    · exact ⟨"off", Or.inr ⟨h, rfl⟩⟩
  have hstate : (if mode = "auto" then "on" else if mode = "off" then "off" else "") = state := by
    rcases hsm with ⟨h1, h2⟩ | ⟨h1, h2⟩ <;> subst h1 <;> subst h2 <;> simp
  by_cases hmode : pd.PoeMode = mode
  · have hloop : setPortPowerLoop p state stored.PortOverrides = none := by
      rw [hl, setPortPowerLoop_append p state pre _ hpre]
      rcases hsm with ⟨h1, h2⟩ | ⟨h1, h2⟩ <;> subst h1 <;> subst h2 <;>
        simp [setPortPowerLoop, hpd, hmode]
    have hw : (setPortPower storeUpstream ⟨stored, calls⟩ macAddress portIdx state).2.state
        = stored := by
      simp [setPortPower, hp, clientGetDeviceByMAC, storeUpstream, hloop]
    refine ⟨by simp [setPortPower, hp, clientGetDeviceByMAC, storeUpstream, hloop], ?_⟩
    rw [GetPower_of_lookup storeUpstream _ macAddress portIdx p stored hp (by rw [hw]; rfl)]
    rw [hl, firstMatch_unique p pre post pd hpd hpre, hmode, hstate]
  · have hloop := setPortPowerLoop_unique p state mode pre post pd hsm hpd hmode hpre hpost
    rw [← hl] at hloop
    have hw : (setPortPower storeUpstream ⟨stored, calls⟩ macAddress portIdx state).2.state
        = { stored with PortOverrides := pre ++ { pd with PoeMode := mode } :: post } := by
      simp [setPortPower, hp, clientGetDeviceByMAC, storeUpstream, hloop, clientUpdateDevice]
    refine ⟨by simp [setPortPower, hp, clientGetDeviceByMAC, storeUpstream, hloop,
      clientUpdateDevice], ?_⟩
    rw [GetPower_of_lookup storeUpstream _ macAddress portIdx p _ hp (by rw [hw]; rfl)]
    simp only []
    rw [firstMatch_unique p pre post { pd with PoeMode := mode } hpd hpre]
    simpa using hstate

/-- Claim C10 at the sample switch: port 2 is switched on, then read. -/
theorem set_then_get_round_trip_witness :
    Atoi "2" = .ok 2 ∧
    sampleDevice.PortOverrides.countP (fun x => decide (x.PortIDX = 2)) = 1 ∧
    (setPortPower storeUpstream ⟨sampleDevice, []⟩ "AA:BB:CC:DD:EE:FF" "2" "on").1 = none ∧
    (GetPower storeUpstream
        (setPortPower storeUpstream ⟨sampleDevice, []⟩ "AA:BB:CC:DD:EE:FF" "2" "on").2
        "AA:BB:CC:DD:EE:FF" "2").1 = { state := "on", err := none } :=
  ⟨by decide, by decide,
    set_then_get_round_trip sampleDevice [] "AA:BB:CC:DD:EE:FF" "2" "on" 2 (by decide)
      (Or.inl rfl) (by decide)⟩

end BmcRpc
